import Mathlib

/-!
Shallow embedding of the generation-orchestration core of the
MK-creator-imagens-4k repository.

The repository contains three near-duplicate variants of the same
React component:
* `src/App.tsx`, first document (lines 1-551)   - suffix `_v1` below;
* `src/App.tsx`, second document (lines 553-end) - suffix `_v2` below;
* `src/unnamed/part_000`                         - suffix `_p0` below.

Each variant exposes an async `generateImage` handler that selects one of
two remote image capabilities, invokes it with a composed prompt, applies
a fallback, and persists the resulting record into IndexedDB.  Remote
call outcomes and the IndexedDB availability are modelled by an `Env`
oracle; component state (React `useState` cells, the IndexedDB store
contents and the log of outbound calls) is an explicit `GenState` record
threaded through the embedded handlers.
-/

namespace MK

/-- Aspect ratios, from the `AspectRatio` enum in `src/types.ts`. -/
inductive AspectRatio where
  | square
  | portrait
  | landscape
  | widePortrait
  | wideLandscape
deriving DecidableEq, Repr

/-- The string value of the enum member (`'1:1'`, `'3:4'`, ...). -/
def AspectRatio.str : AspectRatio → String
  | .square => "1:1"
  | .portrait => "3:4"
  | .landscape => "4:3"
  | .widePortrait => "9:16"
  | .wideLandscape => "16:9"

/-- The result of `aspectRatio.replace(':', ' by ')` used in ratio hints. -/
def AspectRatio.byText : AspectRatio → String
  | .square => "1 by 1"
  | .portrait => "3 by 4"
  | .landscape => "4 by 3"
  | .widePortrait => "9 by 16"
  | .wideLandscape => "16 by 9"

/-- `MODEL_IDS.HIGH_QUALITY` from `src/types.ts`. -/
def HIGH_QUALITY : String := "imagen-4.0-generate-001"

/-- `MODEL_IDS.FAST_REFERENCE` from `src/types.ts`. -/
def FAST_REFERENCE : String := "gemini-2.5-flash-image"

/-- The `GeneratedImage` interface from `src/types.ts`. -/
structure GeneratedImage where
  id : String
  url : String
  prompt : String
  aspectRatio : String
  model : String
  createdAt : Nat
  referenceImage : Option String
deriving DecidableEq, Repr

/-- The reference-image state cell `{ file, preview, base64 }`. -/
structure RefImage where
  base64 : String
  mimeType : String
  preview : String
deriving DecidableEq, Repr

/-- Inline image data inside a model response part. -/
structure InlineData where
  mimeType : String
  data : String
deriving DecidableEq, Repr

/-- One part of a fast-capability (`generateContent`) response. -/
structure Part where
  inlineData : Option InlineData
deriving DecidableEq, Repr

/-- `response.candidates?.[0]?.content?.parts?.find(p => p.inlineData)`
followed by reading its `inlineData`. -/
def findInline (ps : List Part) : Option InlineData :=
  match ps.find? (fun p => p.inlineData.isSome) with
  | some p => p.inlineData
  | none => none

/-- The data URL built from an inline image part. -/
def dataUrl (d : InlineData) : String :=
  "data:" ++ d.mimeType ++ ";base64," ++ d.data

/-- Outcome of one IndexedDB round trip for a `put`. -/
inductive DbOutcome where
  | unavailable
  | ok
  | putError
deriving DecidableEq, Repr

/-- A logged outbound call to one of the remote capabilities. -/
inductive CallRecord where
  | fastImage (text : String) (image : Option RefImage)
  | hqImage (text : String) (ratio : AspectRatio)
  | textEnhance (text : String)
deriving DecidableEq, Repr

/-- Whether a logged call targets one of the two image capabilities
(as opposed to the auxiliary text-rewrite capability). -/
def CallRecord.isImage : CallRecord → Bool
  | .fastImage _ _ => true
  | .hqImage _ _ => true
  | .textEnhance _ => false

/-- Oracle describing the outcomes of the external collaborators for one
`generateImage` invocation.  `Except.error` models a thrown exception. -/
structure Env where
  hqResult : Except String (Option String)
  fastResult : Except String (List Part)
  fallbackResult : Except String (List Part)
  enhanceResult : Except String (Option String)
  db : DbOutcome
  dbErr : String
  now : Nat
deriving Repr

/-- Component state visible to the embedded handlers, together with the
IndexedDB store contents (`archive`) and the log of outbound calls. -/
structure GenState where
  isGenerating : Bool
  generationStatus : String
  errorMsg : Option String
  alertMsg : Option String
  showSettings : Bool
  generatedImages : List GeneratedImage
  selectedImageId : Option String
  archive : List GeneratedImage
  calls : List CallRecord
deriving DecidableEq, Repr

/-- The idle state of a freshly mounted component with an empty store. -/
def initState : GenState :=
  { isGenerating := false
    generationStatus := ""
    errorMsg := none
    alertMsg := none
    showSettings := false
    generatedImages := []
    selectedImageId := none
    archive := []
    calls := [] }

/-- Per-invocation inputs read by the handlers (state cells and props). -/
structure Inputs where
  prompt : String
  aspectRatio : AspectRatio
  referenceImage : Option RefImage
  isTurboMode : Bool
  isMagicPrompt : Bool
  activeModeEdit : Bool
  stylePrompt : String
  apiKeyPresent : Bool
deriving DecidableEq, Repr

/-- IndexedDB `store.put` on an object store with `keyPath: 'id'`:
upserts by `id`, replacing an existing record under the same key. -/
def putRecord (l : List GeneratedImage) (r : GeneratedImage) : List GeneratedImage :=
  if l.any (fun x => x.id = r.id) then
    l.map (fun x => if x.id = r.id then r else x)
  else
    l ++ [r]

/-- Effect of the fire-and-forget `saveImageToDB` used by `_p0` and `_v2`
(resolves `true`/`false`/`null`, never rejects): the record is stored
only when the store is available and the transaction completes. -/
def saveEffect (db : DbOutcome) (archive : List GeneratedImage) (r : GeneratedImage) :
    List GeneratedImage :=
  match db with
  | .ok => putRecord archive r
  | _ => archive

/-- Descending-by-`createdAt` sort performed by `getImagesFromDB`:
`res.sort((a,b) => b.createdAt - a.createdAt)`.  Insertion step. -/
def insertDesc (r : GeneratedImage) : List GeneratedImage → List GeneratedImage
  | [] => [r]
  | x :: xs => if x.createdAt ≤ r.createdAt then r :: x :: xs else x :: insertDesc r xs

/-- Descending-by-`createdAt` sort performed by `getImagesFromDB`. -/
def sortImages (l : List GeneratedImage) : List GeneratedImage :=
  l.foldr insertDesc []

/-- `getImagesFromDB`: empty when the store is unavailable or errors,
otherwise all stored records sorted newest first. -/
def getImagesFromDB (db : DbOutcome) (archive : List GeneratedImage) :
    List GeneratedImage :=
  match db with
  | .unavailable => []
  | _ => sortImages archive

/-- Model selection of `src/App.tsx` (first variant), lines 264-271:
`if (isTurboMode || referenceImage)` selects the fast capability. -/
def useFlash_v1 (isTurboMode hasReference : Bool) : Bool :=
  isTurboMode || hasReference

/-- Model selection of `src/App.tsx` (second variant), lines 814-821. -/
def useFlash_v2 (isTurboMode hasReference : Bool) (ratio : AspectRatio) : Bool :=
  let isSquare := ratio == AspectRatio.square
  let forceHqForAspectRatio := !isSquare && !hasReference
  (isTurboMode && !forceHqForAspectRatio) || hasReference

/-- Model selection of `src/unnamed/part_000`, lines 238-247. -/
def useFlash_p0 (isTurboMode hasReference : Bool) (ratio : AspectRatio) : Bool :=
  let isSquare := ratio == AspectRatio.square
  let forceHqForQuality := !hasReference && (!isTurboMode || !isSquare)
  !forceHqForQuality || hasReference

/-- JavaScript `String.prototype.trim`: strips whitespace at both ends. -/
def jsTrim (s : String) : String :=
  ((s.data.dropWhile Char.isWhitespace).reverse.dropWhile Char.isWhitespace).reverse.asString

/-- JavaScript `String.prototype.includes`: substring containment. -/
def strIncludes (s pat : String) : Bool :=
  (List.range (s.length + 1)).any (fun i => (s.drop i).take pat.length == pat)

/-- `QUALITY_MODIFIERS` shared verbatim by `src/unnamed/part_000` (line 121)
and the second `src/App.tsx` variant (line 694). -/
def QUALITY_MODIFIERS_maximalist : String :=
  " . hyper-maximalist masterpiece, 8k UHD, intricate details, complex geometric patterns, volumetric cinematic lighting, unreal engine 5 render, sharp focus, rich textures, vivid deep colors, award winning photography, ray tracing, global illumination"

/-- `QUALITY_MODIFIERS` of the first `src/App.tsx` variant (line 148). -/
def QUALITY_MODIFIERS_v1 : String :=
  " . official art, canonical design, accurate character features, exact costume details, correct colors, symmetrical face, detailed eyes, 8k resolution, photorealistic, masterpiece, cinematic lighting, HDR, sharp focus, unreal engine 5 render"

/-- Ratio hint prefix used by `_p0` and `_v2`:
`Aspect ratio W by H . ` prepended to the composed prompt. -/
def ratioPrompt (a : AspectRatio) : String :=
  "Aspect ratio " ++ a.byText ++ " . "

/-- Ratio hint of the first `src/App.tsx` variant (line 268):
` aspect ratio W by H`, appended to the composed prompt after ` . `. -/
def ratioText_v1 (a : AspectRatio) : String :=
  " aspect ratio " ++ a.byText

/-- The record constructed on success (identical in all three variants):
`{ id: Date.now().toString(), url, prompt, aspectRatio, model,
createdAt: Date.now(), referenceImage: preview }`. -/
def mkRecord (inp : Inputs) (url model : String) (now : Nat) : GeneratedImage :=
  { id := Nat.repr now
    url := url
    prompt := inp.prompt
    aspectRatio := inp.aspectRatio.str
    model := model
    createdAt := now
    referenceImage := inp.referenceImage.map (fun r => r.preview) }

/-- Result of one primary/fallback branch of the `try` block: the state
after the branch, the `imageUrl` and `usedModel` local variables, and the
pending exception if the branch threw. -/
structure BranchOut where
  s : GenState
  imageUrl : String
  usedModel : String
  thrown : Option String

/-- Outcome of one fast-capability call: the `imageUrl` produced, and
the exception thrown when the call errors or (for callers that throw in
that case) when no inline image part is present. -/
def flashOutcome (r : Except String (List Part)) (noImageErr : String) : String × Option String :=
  match r with
  | .error e => ("", some e)
  | .ok parts =>
    match findInline parts with
    | some d => (dataUrl d, none)
    | none => ("", some noImageErr)

/-- Outcome of the `_p0`/`_v1` fallback call, which does not throw when
the response has no inline image part: `imageUrl` just stays empty. -/
def fallbackOutcomeSilent (r : Except String (List Part)) : String × Option String :=
  match r with
  | .error e => ("", some e)
  | .ok parts =>
    match findInline parts with
    | some d => (dataUrl d, none)
    | none => ("", none)

/-- Image URL of a successful high-fidelity call, `none` when the call
threw or returned no image bytes (both trigger the fallback). -/
def hqOutcome (r : Except String (Option String)) : Option String :=
  match r with
  | .ok (some b64) => some ("data:image/jpeg;base64," ++ b64)
  | .ok none => none
  | .error _ => none

/-- `enhancePromptAI`: absorbs every failure of the auxiliary text
capability, returning the original prompt; also falls back when the
response text is absent or empty (`response.text || inputPrompt`). -/
def absorbEnhance (r : Except String (Option String)) (p : String) : String :=
  match r with
  | .ok (some t) => if t = "" then p else t
  | .ok none => p
  | .error _ => p

/-- Instruction template of `enhancePromptAI` in the first `src/App.tsx`
variant (lines 226-229). -/
def enhanceInstruction_v1 (p : String) : String :=
  "You are an expert visual director. Transform this user request into a detailed image generation prompt in English.\nCRITICAL: If the user mentions a specific character (from anime, games, movies, or public figures), you MUST explicitly describe their official canonical appearance (hair color, eye shape, costume details, accessories) to ensure the image generator creates them perfectly without errors.\nKeep the style: Realism, 8k, Cinematic.\nUser Request: \"" ++ p ++ "\""

/-- Instruction template of `enhancePromptAI` in the second `src/App.tsx`
variant (line 768). -/
def enhanceInstruction_v2 (p : String) : String :=
  "Rewrite this image prompt to be extremely descriptive, focusing on complex details, lighting, and artistic composition. Make it sophisticated. Input: \"" ++ p ++ "\""

/-! ### First `src/App.tsx` variant (`generateImage`, lines 238-356) -/

/-- Prompt composition of the first variant (lines 247-262): turbo mode
skips the rewrite, magic mode calls the auxiliary capability. -/
def composePrompt_v1 (inp : Inputs) (env : Env) (s : GenState) : GenState × String :=
  if inp.isTurboMode then
    ({ s with generationStatus := "⚡ Gerando Ultra Rápido..." },
      inp.prompt ++ QUALITY_MODIFIERS_v1)
  else if inp.isMagicPrompt then
    let s := { s with generationStatus := "✨ Consultando Personagem..." }
    let s := { s with calls := s.calls ++ [CallRecord.textEnhance (enhanceInstruction_v1 inp.prompt)] }
    (s, absorbEnhance env.enhanceResult inp.prompt ++ QUALITY_MODIFIERS_v1)
  else
    ({ s with generationStatus := "🎨 Criando..." },
      inp.prompt ++ QUALITY_MODIFIERS_v1)

/-- Fast-capability branch of the first variant (lines 270-296). -/
def flashBranch_v1 (inp : Inputs) (env : Env) (s : GenState) (finalPrompt : String) : BranchOut :=
  let promptWithRatio := finalPrompt ++ " . " ++ ratioText_v1 inp.aspectRatio
  let s := { s with calls := s.calls ++ [CallRecord.fastImage promptWithRatio inp.referenceImage] }
  let o := flashOutcome env.fastResult "O modelo rápido não retornou imagem. Tente novamente."
  ⟨s, o.1, FAST_REFERENCE, o.2⟩

/-- Fallback of the first variant (lines 317-330): model tag
`gemini-2.5-flash-image (backup)`; a response without an inline image
part leaves `imageUrl` empty without throwing. -/
def fallback_v1 (inp : Inputs) (env : Env) (s : GenState) (finalPrompt : String) : BranchOut :=
  let promptWithRatio := finalPrompt ++ " . " ++ ratioText_v1 inp.aspectRatio
  let s := { s with calls := s.calls ++ [CallRecord.fastImage promptWithRatio none] }
  let o := fallbackOutcomeSilent env.fallbackResult
  ⟨s, o.1, "gemini-2.5-flash-image (backup)", o.2⟩

/-- High-fidelity branch of the first variant (lines 298-331). -/
def hqBranch_v1 (inp : Inputs) (env : Env) (s : GenState) (finalPrompt : String) : BranchOut :=
  let s := { s with calls := s.calls ++ [CallRecord.hqImage finalPrompt inp.aspectRatio] }
  match hqOutcome env.hqResult with
  | some url => ⟨s, url, HIGH_QUALITY, none⟩
  | none => fallback_v1 inp env s finalPrompt

/-- The `catch` of the first variant (lines 348-351): an
`alert` with the error detail, falling back to `Erro desconhecido`. -/
def catch_v1 (s : GenState) (e : String) : GenState :=
  { s with alertMsg := some ("Não foi possível gerar a imagem. Detalhe: " ++
      (if e = "" then "Erro desconhecido" else e)) }

/-- Success block, `catch` and `finally` of the first variant (lines
333-355).  The success path `await`s `saveImageToDB`, whose promise
rejects when the IndexedDB `put` request errors (`request.onerror` calls
`reject`), so a failing put throws before `setGeneratedImages` runs. -/
def finish_v1 (inp : Inputs) (env : Env) (b : BranchOut) : GenState :=
  let after :=
    match b.thrown with
    | some e => catch_v1 b.s e
    | none =>
      if b.imageUrl = "" then b.s
      else
        let r := mkRecord inp b.imageUrl b.usedModel env.now
        match env.db with
        | .putError => catch_v1 b.s env.dbErr
        | .ok => { b.s with archive := putRecord b.s.archive r, generatedImages := r :: b.s.generatedImages }
        | .unavailable => { b.s with generatedImages := r :: b.s.generatedImages }
  { after with isGenerating := false, generationStatus := "" }

/-- Branch selection and completion of the first variant: the body of
the `try` block after prompt composition, plus `catch` and `finally`. -/
def runBranches_v1 (inp : Inputs) (env : Env) (s : GenState) (finalPrompt : String) : GenState :=
  finish_v1 inp env
    (if useFlash_v1 inp.isTurboMode inp.referenceImage.isSome then
      flashBranch_v1 inp env s finalPrompt
    else
      hqBranch_v1 inp env s finalPrompt)

/-- `generateImage` of the first `src/App.tsx` variant (lines 238-356).
Note: this variant performs no credential check (line 241 removed it). -/
def generateImage_v1 (inp : Inputs) (env : Env) (s : GenState) : GenState :=
  if jsTrim inp.prompt = "" then s
  else
    let s := { s with isGenerating := true }
    let c := composePrompt_v1 inp env s
    runBranches_v1 inp env c.1 c.2

/-! ### Second `src/App.tsx` variant (`generateImage`, lines 776-929) -/

/-- Prompt composition of the second variant (lines 795-804): the rewrite
runs when magic mode is on or the prompt is short, and never when a
reference image is attached. -/
def composePrompt_v2 (inp : Inputs) (env : Env) (s : GenState) : GenState × String :=
  if (inp.isMagicPrompt || decide (inp.prompt.length < 30)) && !inp.referenceImage.isSome then
    let s := { s with generationStatus := "✨ Maximizando Complexidade..." }
    let s := { s with calls := s.calls ++ [CallRecord.textEnhance (enhanceInstruction_v2 inp.prompt)] }
    (s, absorbEnhance env.enhanceResult inp.prompt ++ QUALITY_MODIFIERS_maximalist)
  else
    (s, inp.prompt ++ QUALITY_MODIFIERS_maximalist)

/-- Fast-capability branch of the second variant (lines 823-853). -/
def flashBranch_v2 (inp : Inputs) (env : Env) (s : GenState) (finalPrompt : String) : BranchOut :=
  let s := { s with generationStatus := "⚡ Gerando (Turbo)..." }
  let combinedPrompt := ratioPrompt inp.aspectRatio ++ finalPrompt
  let s := { s with calls := s.calls ++ [CallRecord.fastImage combinedPrompt inp.referenceImage] }
  let o := flashOutcome env.fastResult "O modelo não retornou dados de imagem."
  ⟨s, o.1, FAST_REFERENCE, o.2⟩

/-- Fallback of the second variant (lines 878-897): model tag
`gemini-2.5-flash-image (fallback)`; unlike `_p0` and `_v1`, a fallback
response without an inline image part throws a final error. -/
def fallback_v2 (inp : Inputs) (env : Env) (s : GenState) (finalPrompt : String) : BranchOut :=
  let s := { s with generationStatus := "⚠️ Alternando para Turbo (Fallback)..." }
  let s := { s with calls := s.calls ++ [CallRecord.fastImage (ratioPrompt inp.aspectRatio ++ finalPrompt) none] }
  let o := flashOutcome env.fallbackResult
      "Falha na geração. Tente simplificar o prompt ou verificar sua chave API."
  ⟨s, o.1, "gemini-2.5-flash-image (fallback)", o.2⟩

/-- High-fidelity branch of the second variant (lines 855-898). -/
def hqBranch_v2 (inp : Inputs) (env : Env) (s : GenState) (finalPrompt : String) : BranchOut :=
  let forceHq := !(inp.aspectRatio == AspectRatio.square) && !inp.referenceImage.isSome
  let s := { s with generationStatus :=
      if forceHq then "📐 Ajustando Formato 9:16/16:9..." else "🎨 Renderizando Alta Fidelidade..." }
  let s := { s with calls := s.calls ++ [CallRecord.hqImage finalPrompt inp.aspectRatio] }
  match hqOutcome env.hqResult with
  | some url => ⟨s, url, HIGH_QUALITY, none⟩
  | none => fallback_v2 inp env s finalPrompt

/-- Error classification of the second variant (lines 915-924). -/
def classify_v2 (e : String) : String :=
  if e = "" then "Ocorreu um erro inesperado na comunicação com a API."
  else if strIncludes e "SAFETY" then
    "Conteúdo bloqueado pelos filtros de segurança. Tente um prompt diferente."
  else if strIncludes e "429" then
    "Muitas requisições. Aguarde alguns segundos."
  else if strIncludes e "403" || strIncludes e "API key" || strIncludes e "401" || strIncludes e "fetch failed" then
    "Erro de Chave API: Verifique se sua chave está correta nas Configurações."
  else "Ocorreu um erro inesperado na comunicação com a API."

/-- Success block, `catch` and `finally` of the second variant (lines
900-928): the record is prepended to state and `saveImageToDB` is
fire-and-forget (its promise never rejects). -/
def finish_v2 (inp : Inputs) (env : Env) (b : BranchOut) : GenState :=
  let after :=
    match b.thrown with
    | some e => { b.s with errorMsg := some (classify_v2 e) }
    | none =>
      if b.imageUrl = "" then b.s
      else
        let r := mkRecord inp b.imageUrl b.usedModel env.now
        { b.s with generatedImages := r :: b.s.generatedImages,
                   archive := saveEffect env.db b.s.archive r }
  { after with isGenerating := false, generationStatus := "" }

/-- Branch selection and completion of the second variant: the body of
the `try` block after prompt composition, plus `catch` and `finally`. -/
def runBranches_v2 (inp : Inputs) (env : Env) (s : GenState) (finalPrompt : String) : GenState :=
  finish_v2 inp env
    (if useFlash_v2 inp.isTurboMode inp.referenceImage.isSome inp.aspectRatio then
      flashBranch_v2 inp env s finalPrompt
    else
      hqBranch_v2 inp env s finalPrompt)

/-- `generateImage` of the second `src/App.tsx` variant (lines 776-929). -/
def generateImage_v2 (inp : Inputs) (env : Env) (s : GenState) : GenState :=
  if jsTrim inp.prompt = "" then s
  else if !inp.apiKeyPresent then
    { s with errorMsg := some "Configuração Necessária: Chave API ausente. Clique na engrenagem para configurar.",
             showSettings := true }
  else
    let s := { s with isGenerating := true, generationStatus := "Inicializando...", errorMsg := none }
    let c := composePrompt_v2 inp env s
    runBranches_v2 inp env c.1 c.2

/-! ### `src/unnamed/part_000` variant (`generateImage`, lines 214-341) -/

/-- Fast-capability branch of `part_000` (lines 252-281): the reference
image part is attached only when `activeMode === 'edit'`. -/
def flashBranch_p0 (inp : Inputs) (env : Env) (s : GenState) (finalPrompt : String) : BranchOut :=
  let hasReference := inp.referenceImage.isSome
  let s := { s with generationStatus :=
      if hasReference then "🎨 Editando Imagem..." else "⚡ Gerando (Turbo)..." }
  let combinedPrompt := ratioPrompt inp.aspectRatio ++ finalPrompt
  let imgArg := if hasReference && inp.activeModeEdit then inp.referenceImage else none
  let s := { s with calls := s.calls ++ [CallRecord.fastImage combinedPrompt imgArg] }
  let o := flashOutcome env.fastResult "O modelo não retornou imagem."
  ⟨s, o.1, FAST_REFERENCE, o.2⟩

/-- Fallback of `part_000` (lines 304-316): model tag
`gemini-2.5-flash-image (fallback)`; a fallback response without an
inline image part leaves `imageUrl` empty without throwing. -/
def fallback_p0 (inp : Inputs) (env : Env) (s : GenState) (finalPrompt : String) : BranchOut :=
  let s := { s with generationStatus := "⚠️ Fallback Turbo..." }
  let s := { s with calls := s.calls ++ [CallRecord.fastImage (ratioPrompt inp.aspectRatio ++ finalPrompt) none] }
  let o := fallbackOutcomeSilent env.fallbackResult
  ⟨s, o.1, "gemini-2.5-flash-image (fallback)", o.2⟩

/-- High-fidelity branch of `part_000` (lines 283-317). -/
def hqBranch_p0 (inp : Inputs) (env : Env) (s : GenState) (finalPrompt : String) : BranchOut :=
  let s := { s with generationStatus := "🖌️ Renderizando HQ..." }
  let s := { s with calls := s.calls ++ [CallRecord.hqImage finalPrompt inp.aspectRatio] }
  match hqOutcome env.hqResult with
  | some url => ⟨s, url, HIGH_QUALITY, none⟩
  | none => fallback_p0 inp env s finalPrompt

/-- Success block, `catch` and `finally` of `part_000` (lines 319-340):
the record is prepended to state, selected, and `saveImageToDB` is
fire-and-forget (its promise never rejects). -/
def finish_p0 (inp : Inputs) (env : Env) (b : BranchOut) : GenState :=
  let after :=
    match b.thrown with
    | some _ => { b.s with errorMsg := some "Falha na geração. Verifique sua chave API ou simplifique o prompt." }
    | none =>
      if b.imageUrl = "" then b.s
      else
        let r := mkRecord inp b.imageUrl b.usedModel env.now
        { b.s with generatedImages := r :: b.s.generatedImages,
                   selectedImageId := some r.id,
                   archive := saveEffect env.db b.s.archive r }
  { after with isGenerating := false, generationStatus := "" }

/-- Branch selection and completion of the `part_000` variant: the body
of the `try` block, plus `catch` and `finally`. -/
def runBranches_p0 (inp : Inputs) (env : Env) (s : GenState) (finalPrompt : String) : GenState :=
  finish_p0 inp env
    (if useFlash_p0 inp.isTurboMode inp.referenceImage.isSome inp.aspectRatio then
      flashBranch_p0 inp env s finalPrompt
    else
      hqBranch_p0 inp env s finalPrompt)

/-- `generateImage` of `src/unnamed/part_000` (lines 214-341). -/
def generateImage_p0 (inp : Inputs) (env : Env) (s : GenState) : GenState :=
  if jsTrim inp.prompt = "" then s
  else if !inp.apiKeyPresent then
    { s with errorMsg := some "Configuração Necessária: Chave API ausente.",
             showSettings := true }
  else
    let s := { s with isGenerating := true, generationStatus := "Inicializando...", errorMsg := none }
    let finalPrompt := inp.prompt ++ inp.stylePrompt ++ QUALITY_MODIFIERS_maximalist
    runBranches_p0 inp env s finalPrompt

/-! ### Concrete fixtures used by witnesses and counterexamples -/

/-- Whether a logged call targets the high-fidelity capability. -/
def isHqCall : CallRecord → Bool
  | .hqImage _ _ => true
  | _ => false

/-- A fast-capability response part carrying an inline image. -/
def okPart : Part := { inlineData := some { mimeType := "image/png", data := "SU1H" } }

/-- A fast-capability response part carrying no inline image. -/
def noImagePart : Part := { inlineData := none }

/-- A sample uploaded reference image. -/
def sampleRef : RefImage :=
  { base64 := "QUJD", mimeType := "image/png", preview := "data:image/png;base64,QUJD" }

/-- Baseline inputs: the worked example of the specification (fast mode,
no reference, prompt `a red fox in snow`, but square ratio). -/
def baseInputs : Inputs :=
  { prompt := "a red fox in snow"
    aspectRatio := AspectRatio.square
    referenceImage := none
    isTurboMode := true
    isMagicPrompt := false
    activeModeEdit := false
    stylePrompt := ""
    apiKeyPresent := true }

/-- Environment in which every collaborator succeeds. -/
def envAllOk : Env :=
  { hqResult := .ok (some "SFE=")
    fastResult := .ok [okPart]
    fallbackResult := .ok [okPart]
    enhanceResult := .ok none
    db := .ok
    dbErr := ""
    now := 1000 }

/-- Environment where the high-fidelity call throws and the fallback
returns a response without any inline image part. -/
def envHqFailFallbackNoImage : Env :=
  { envAllOk with hqResult := .error "quota exceeded", fallbackResult := .ok [noImagePart] }

/-- Environment where the high-fidelity call throws and the fallback
succeeds with an inline image. -/
def envHqFailFallbackOk : Env :=
  { envAllOk with hqResult := .error "quota exceeded" }

/-- Environment where generation succeeds but the IndexedDB `put`
request errors (its promise rejects in the first `src/App.tsx` variant). -/
def envDbPutError : Env :=
  { envAllOk with db := .putError, dbErr := "IndexedDB put failed" }

/-- Turbo-mode request for a non-square ratio without a reference. -/
def inpTurboWide : Inputs := { baseInputs with aspectRatio := AspectRatio.wideLandscape }

/-- A whitespace-only prompt. -/
def inpWhitespace : Inputs := { baseInputs with prompt := "   " }

/-- A request with no API credential available. -/
def inpNoKey : Inputs := { baseInputs with apiKeyPresent := false }

/-- High-fidelity request: high-fidelity mode, no reference image. -/
def inpHqMode : Inputs := { baseInputs with isTurboMode := false }

/-- Two records produced in the same millisecond (`Date.now() = 1000`). -/
def recSameMs1 : GeneratedImage := mkRecord baseInputs "urlA" HIGH_QUALITY 1000

/-- Second record of the same millisecond, from a different prompt. -/
def recSameMs2 : GeneratedImage :=
  mkRecord { baseInputs with prompt := "another prompt" } "urlB" FAST_REFERENCE 1000

/-- Records with creation timestamps 1 < 2 < 3. -/
def recT1 : GeneratedImage := mkRecord baseInputs "u1" HIGH_QUALITY 1

/-- Record with creation timestamp 2. -/
def recT2 : GeneratedImage := mkRecord baseInputs "u2" HIGH_QUALITY 2

/-- Record with creation timestamp 3. -/
def recT3 : GeneratedImage := mkRecord baseInputs "u3" HIGH_QUALITY 3

/-- The record produced by `part_000` from the baseline inputs when the
fast capability returns `okPart`. -/
def recFlashOk : GeneratedImage :=
  mkRecord baseInputs "data:image/png;base64,SU1H" FAST_REFERENCE 1000

/-! ### Helper lemmas -/

/-- A data URL is never the empty string. -/
theorem dataUrl_ne_empty (d : InlineData) : dataUrl d ≠ "" := by
  simp [dataUrl, String.ext_iff]

/-- The high-fidelity branch of `part_000` does not touch the gallery,
the archive or the error channels. -/
theorem hqBranch_p0_preserve (inp : Inputs) (env : Env) (s : GenState) (fp : String) :
    (hqBranch_p0 inp env s fp).s.generatedImages = s.generatedImages ∧
    (hqBranch_p0 inp env s fp).s.archive = s.archive ∧
    (hqBranch_p0 inp env s fp).s.errorMsg = s.errorMsg ∧
    (hqBranch_p0 inp env s fp).s.alertMsg = s.alertMsg := by
  rcases h : hqOutcome env.hqResult with _ | url <;> simp [hqBranch_p0, fallback_p0, h]

/-- The high-fidelity branch of the first variant does not touch the
gallery, the archive or the error channels. -/
theorem hqBranch_v1_preserve (inp : Inputs) (env : Env) (s : GenState) (fp : String) :
    (hqBranch_v1 inp env s fp).s.generatedImages = s.generatedImages ∧
    (hqBranch_v1 inp env s fp).s.archive = s.archive ∧
    (hqBranch_v1 inp env s fp).s.errorMsg = s.errorMsg ∧
    (hqBranch_v1 inp env s fp).s.alertMsg = s.alertMsg := by
  rcases h : hqOutcome env.hqResult with _ | url <;> simp [hqBranch_v1, fallback_v1, h]

/-- The high-fidelity branch of the second variant does not touch the
gallery, the archive or the error channels. -/
theorem hqBranch_v2_preserve (inp : Inputs) (env : Env) (s : GenState) (fp : String) :
    (hqBranch_v2 inp env s fp).s.generatedImages = s.generatedImages ∧
    (hqBranch_v2 inp env s fp).s.archive = s.archive ∧
    (hqBranch_v2 inp env s fp).s.errorMsg = s.errorMsg ∧
    (hqBranch_v2 inp env s fp).s.alertMsg = s.alertMsg := by
  rcases h : hqOutcome env.hqResult with _ | url <;> simp [hqBranch_v2, fallback_v2, h]

/-- Prompt composition of the first variant only touches the status line
and appends at most one auxiliary text call. -/
theorem composePrompt_v1_preserve (inp : Inputs) (env : Env) (s : GenState) :
    (composePrompt_v1 inp env s).1.generatedImages = s.generatedImages ∧
    (composePrompt_v1 inp env s).1.archive = s.archive ∧
    (composePrompt_v1 inp env s).1.errorMsg = s.errorMsg ∧
    (composePrompt_v1 inp env s).1.alertMsg = s.alertMsg ∧
    (composePrompt_v1 inp env s).1.calls.countP CallRecord.isImage
      = s.calls.countP CallRecord.isImage := by
  unfold composePrompt_v1
  split
  · simp
  · split <;> simp [CallRecord.isImage]

/-- Prompt composition of the second variant only touches the status
line and appends at most one auxiliary text call. -/
theorem composePrompt_v2_preserve (inp : Inputs) (env : Env) (s : GenState) :
    (composePrompt_v2 inp env s).1.generatedImages = s.generatedImages ∧
    (composePrompt_v2 inp env s).1.archive = s.archive ∧
    (composePrompt_v2 inp env s).1.errorMsg = s.errorMsg ∧
    (composePrompt_v2 inp env s).1.alertMsg = s.alertMsg ∧
    (composePrompt_v2 inp env s).1.calls.countP CallRecord.isImage
      = s.calls.countP CallRecord.isImage := by
  unfold composePrompt_v2
  split <;> simp [CallRecord.isImage]

/-- Gallery shape after the completion step of `part_000`: either
untouched, or the freshly built record is prepended. -/
theorem finish_p0_images (inp : Inputs) (env : Env) (b : BranchOut) :
    (finish_p0 inp env b).generatedImages = b.s.generatedImages ∨
    (finish_p0 inp env b).generatedImages
      = mkRecord inp b.imageUrl b.usedModel env.now :: b.s.generatedImages := by
  rcases h : b.thrown with _ | e
  · by_cases hu : b.imageUrl = ""
    · exact Or.inl (by simp [finish_p0, h, hu])
    · exact Or.inr (by simp [finish_p0, h, hu])
  · exact Or.inl (by simp [finish_p0, h])

/-- Gallery shape after the completion step of the first variant. -/
theorem finish_v1_images (inp : Inputs) (env : Env) (b : BranchOut) :
    (finish_v1 inp env b).generatedImages = b.s.generatedImages ∨
    (finish_v1 inp env b).generatedImages
      = mkRecord inp b.imageUrl b.usedModel env.now :: b.s.generatedImages := by
  rcases h : b.thrown with _ | e
  · by_cases hu : b.imageUrl = ""
    · exact Or.inl (by simp [finish_v1, h, hu])
    · rcases hdb : env.db with _ | _ | _
      · exact Or.inr (by simp [finish_v1, h, hu, hdb])
      · exact Or.inr (by simp [finish_v1, h, hu, hdb])
      · exact Or.inl (by simp [finish_v1, catch_v1, h, hu, hdb])
  · exact Or.inl (by simp [finish_v1, catch_v1, h])

/-- Gallery shape after the completion step of the second variant. -/
theorem finish_v2_images (inp : Inputs) (env : Env) (b : BranchOut) :
    (finish_v2 inp env b).generatedImages = b.s.generatedImages ∨
    (finish_v2 inp env b).generatedImages
      = mkRecord inp b.imageUrl b.usedModel env.now :: b.s.generatedImages := by
  rcases h : b.thrown with _ | e
  · by_cases hu : b.imageUrl = ""
    · exact Or.inl (by simp [finish_v2, h, hu])
    · exact Or.inr (by simp [finish_v2, h, hu])
  · exact Or.inl (by simp [finish_v2, h])

/-- Gallery shape of the `part_000` try body. -/
theorem runBranches_p0_images (inp : Inputs) (env : Env) (s : GenState) (fp : String) :
    (runBranches_p0 inp env s fp).generatedImages = s.generatedImages ∨
    ∃ u m, (runBranches_p0 inp env s fp).generatedImages
      = mkRecord inp u m env.now :: s.generatedImages := by
  unfold runBranches_p0
  by_cases hf : useFlash_p0 inp.isTurboMode inp.referenceImage.isSome inp.aspectRatio = true <;>
    simp only [hf, if_true, if_false, Bool.false_eq_true, ite_false, ite_true]
  · rcases finish_p0_images inp env (flashBranch_p0 inp env s fp) with h | h
    · exact Or.inl h
    · exact Or.inr ⟨_, _, h⟩
  · rcases finish_p0_images inp env (hqBranch_p0 inp env s fp) with h | h
    · exact Or.inl (h.trans (hqBranch_p0_preserve inp env s fp).1)
    · right
      refine ⟨(hqBranch_p0 inp env s fp).imageUrl, (hqBranch_p0 inp env s fp).usedModel,
        h.trans ?_⟩
      rw [(hqBranch_p0_preserve inp env s fp).1]

/-- Gallery shape of the first variant try body. -/
theorem runBranches_v1_images (inp : Inputs) (env : Env) (s : GenState) (fp : String) :
    (runBranches_v1 inp env s fp).generatedImages = s.generatedImages ∨
    ∃ u m, (runBranches_v1 inp env s fp).generatedImages
      = mkRecord inp u m env.now :: s.generatedImages := by
  unfold runBranches_v1
  by_cases hf : useFlash_v1 inp.isTurboMode inp.referenceImage.isSome = true <;>
    simp only [hf, if_true, if_false, Bool.false_eq_true, ite_false, ite_true]
  · rcases finish_v1_images inp env (flashBranch_v1 inp env s fp) with h | h
    · exact Or.inl h
    · exact Or.inr ⟨_, _, h⟩
  · rcases finish_v1_images inp env (hqBranch_v1 inp env s fp) with h | h
    · exact Or.inl (h.trans (hqBranch_v1_preserve inp env s fp).1)
    · right
      refine ⟨(hqBranch_v1 inp env s fp).imageUrl, (hqBranch_v1 inp env s fp).usedModel,
        h.trans ?_⟩
      rw [(hqBranch_v1_preserve inp env s fp).1]

/-- Gallery shape of the second variant try body. -/
theorem runBranches_v2_images (inp : Inputs) (env : Env) (s : GenState) (fp : String) :
    (runBranches_v2 inp env s fp).generatedImages = s.generatedImages ∨
    ∃ u m, (runBranches_v2 inp env s fp).generatedImages
      = mkRecord inp u m env.now :: s.generatedImages := by
  unfold runBranches_v2
  by_cases hf : useFlash_v2 inp.isTurboMode inp.referenceImage.isSome inp.aspectRatio = true <;>
    simp only [hf, if_true, if_false, Bool.false_eq_true, ite_false, ite_true]
  · rcases finish_v2_images inp env (flashBranch_v2 inp env s fp) with h | h
    · exact Or.inl h
    · exact Or.inr ⟨_, _, h⟩
  · rcases finish_v2_images inp env (hqBranch_v2 inp env s fp) with h | h
    · exact Or.inl (h.trans (hqBranch_v2_preserve inp env s fp).1)
    · right
      refine ⟨(hqBranch_v2 inp env s fp).imageUrl, (hqBranch_v2 inp env s fp).usedModel,
        h.trans ?_⟩
      rw [(hqBranch_v2_preserve inp env s fp).1]

/-- Gallery shape of the whole `part_000` handler. -/
theorem gen_p0_images (inp : Inputs) (env : Env) (s : GenState) :
    (generateImage_p0 inp env s).generatedImages = s.generatedImages ∨
    ∃ u m, (generateImage_p0 inp env s).generatedImages
      = mkRecord inp u m env.now :: s.generatedImages := by
  unfold generateImage_p0
  by_cases hp : jsTrim inp.prompt = ""
  · simp [hp]
  · by_cases hk : inp.apiKeyPresent = true
    · rw [if_neg hp, if_neg (by simp [hk] : ¬((!inp.apiKeyPresent) = true))]
      exact runBranches_p0_images inp env _ _
    · simp [hp, hk]

/-- Gallery shape of the whole first-variant handler. -/
theorem gen_v1_images (inp : Inputs) (env : Env) (s : GenState) :
    (generateImage_v1 inp env s).generatedImages = s.generatedImages ∨
    ∃ u m, (generateImage_v1 inp env s).generatedImages
      = mkRecord inp u m env.now :: s.generatedImages := by
  unfold generateImage_v1
  by_cases hp : jsTrim inp.prompt = ""
  · simp [hp]
  · rw [if_neg hp]
    rcases runBranches_v1_images inp env
        (composePrompt_v1 inp env { s with isGenerating := true }).1
        (composePrompt_v1 inp env { s with isGenerating := true }).2 with h | ⟨u, m, h⟩
    · exact Or.inl (h.trans (composePrompt_v1_preserve inp env { s with isGenerating := true }).1)
    · right
      refine ⟨u, m, h.trans ?_⟩
      rw [(composePrompt_v1_preserve inp env { s with isGenerating := true }).1]

/-- Gallery shape of the whole second-variant handler. -/
theorem gen_v2_images (inp : Inputs) (env : Env) (s : GenState) :
    (generateImage_v2 inp env s).generatedImages = s.generatedImages ∨
    ∃ u m, (generateImage_v2 inp env s).generatedImages
      = mkRecord inp u m env.now :: s.generatedImages := by
  unfold generateImage_v2
  by_cases hp : jsTrim inp.prompt = ""
  · simp [hp]
  · by_cases hk : inp.apiKeyPresent = true
    · rw [if_neg hp, if_neg (by simp [hk] : ¬((!inp.apiKeyPresent) = true))]
      rcases runBranches_v2_images inp env
          (composePrompt_v2 inp env { s with isGenerating := true, generationStatus := "Inicializando...", errorMsg := none }).1
          (composePrompt_v2 inp env { s with isGenerating := true, generationStatus := "Inicializando...", errorMsg := none }).2 with h | ⟨u, m, h⟩
      · exact Or.inl (h.trans (composePrompt_v2_preserve inp env _).1)
      · right
        refine ⟨u, m, h.trans ?_⟩
        rw [(composePrompt_v2_preserve inp env { s with isGenerating := true, generationStatus := "Inicializando...", errorMsg := none }).1]
    · simp [hp, hk]

/-- Every record freshly prepended by `part_000` keeps the original
prompt and the requested ratio. -/
theorem gen_p0_record (inp : Inputs) (env : Env) (s : GenState) (r : GeneratedImage)
    (h : (generateImage_p0 inp env s).generatedImages = r :: s.generatedImages) :
    r.prompt = inp.prompt ∧ r.aspectRatio = inp.aspectRatio.str := by
  rcases gen_p0_images inp env s with hh | ⟨u, m, hh⟩
  · rw [h] at hh
    exact absurd (congrArg List.length hh) (by simp)
  · rw [h] at hh
    injection hh with h1 _
    subst h1
    exact ⟨rfl, rfl⟩

/-- Every record freshly prepended by the first variant keeps the
original prompt and the requested ratio. -/
theorem gen_v1_record (inp : Inputs) (env : Env) (s : GenState) (r : GeneratedImage)
    (h : (generateImage_v1 inp env s).generatedImages = r :: s.generatedImages) :
    r.prompt = inp.prompt ∧ r.aspectRatio = inp.aspectRatio.str := by
  rcases gen_v1_images inp env s with hh | ⟨u, m, hh⟩
  · rw [h] at hh
    exact absurd (congrArg List.length hh) (by simp)
  · rw [h] at hh
    injection hh with h1 _
    subst h1
    exact ⟨rfl, rfl⟩

/-- Every record freshly prepended by the second variant keeps the
original prompt and the requested ratio. -/
theorem gen_v2_record (inp : Inputs) (env : Env) (s : GenState) (r : GeneratedImage)
    (h : (generateImage_v2 inp env s).generatedImages = r :: s.generatedImages) :
    r.prompt = inp.prompt ∧ r.aspectRatio = inp.aspectRatio.str := by
  rcases gen_v2_images inp env s with hh | ⟨u, m, hh⟩
  · rw [h] at hh
    exact absurd (congrArg List.length hh) (by simp)
  · rw [h] at hh
    injection hh with h1 _
    subst h1
    exact ⟨rfl, rfl⟩

/-- The `finally` of `part_000` clears the flags on every path. -/
theorem gen_p0_flags (inp : Inputs) (env : Env) (s : GenState)
    (h1 : s.isGenerating = false) (h2 : s.generationStatus = "") :
    (generateImage_p0 inp env s).isGenerating = false ∧
    (generateImage_p0 inp env s).generationStatus = "" := by
  unfold generateImage_p0
  by_cases hp : jsTrim inp.prompt = ""
  · simp [hp, h1, h2]
  · by_cases hk : inp.apiKeyPresent = true
    · rw [if_neg hp, if_neg (by simp [hk] : ¬((!inp.apiKeyPresent) = true))]
      exact ⟨rfl, rfl⟩
    · simp [hp, hk, h1, h2]

/-- The `finally` of the first variant clears the flags on every path. -/
theorem gen_v1_flags (inp : Inputs) (env : Env) (s : GenState)
    (h1 : s.isGenerating = false) (h2 : s.generationStatus = "") :
    (generateImage_v1 inp env s).isGenerating = false ∧
    (generateImage_v1 inp env s).generationStatus = "" := by
  unfold generateImage_v1
  by_cases hp : jsTrim inp.prompt = ""
  · simp [hp, h1, h2]
  · rw [if_neg hp]
    exact ⟨rfl, rfl⟩

/-- The `finally` of the second variant clears the flags on every path. -/
theorem gen_v2_flags (inp : Inputs) (env : Env) (s : GenState)
    (h1 : s.isGenerating = false) (h2 : s.generationStatus = "") :
    (generateImage_v2 inp env s).isGenerating = false ∧
    (generateImage_v2 inp env s).generationStatus = "" := by
  unfold generateImage_v2
  by_cases hp : jsTrim inp.prompt = ""
  · simp [hp, h1, h2]
  · by_cases hk : inp.apiKeyPresent = true
    · rw [if_neg hp, if_neg (by simp [hk] : ¬((!inp.apiKeyPresent) = true))]
      exact ⟨rfl, rfl⟩
    · simp [hp, hk, h1, h2]

/-- Double failure in the `part_000` try body: the high-fidelity call
yields no image and the fallback throws or yields no usable image. -/
theorem runBranches_p0_bothfail (inp : Inputs) (env : Env) (s : GenState) (fp : String)
    (hr : inp.referenceImage = none) (ht : inp.isTurboMode = false)
    (hq : hqOutcome env.hqResult = none) :
    (∀ e, env.fallbackResult = .error e →
      (runBranches_p0 inp env s fp).generatedImages = s.generatedImages ∧
      (runBranches_p0 inp env s fp).archive = s.archive ∧
      (runBranches_p0 inp env s fp).errorMsg
        = some "Falha na geração. Verifique sua chave API ou simplifique o prompt.") ∧
    (∀ ps, env.fallbackResult = .ok ps → findInline ps = none →
      (runBranches_p0 inp env s fp).generatedImages = s.generatedImages ∧
      (runBranches_p0 inp env s fp).archive = s.archive ∧
      (runBranches_p0 inp env s fp).errorMsg = s.errorMsg) := by
  have hf : useFlash_p0 inp.isTurboMode inp.referenceImage.isSome inp.aspectRatio = false := by
    rw [hr, ht]; rfl
  constructor
  · intro e he
    simp [runBranches_p0, hf, hqBranch_p0, hq, fallback_p0, fallbackOutcomeSilent, he, finish_p0]
  · intro ps hps hfi
    simp [runBranches_p0, hf, hqBranch_p0, hq, fallback_p0, fallbackOutcomeSilent, hps, hfi,
      finish_p0]

/-- Double failure in the first-variant try body. -/
theorem runBranches_v1_bothfail (inp : Inputs) (env : Env) (s : GenState) (fp : String)
    (hr : inp.referenceImage = none) (ht : inp.isTurboMode = false)
    (hq : hqOutcome env.hqResult = none) :
    (∀ e, env.fallbackResult = .error e →
      (runBranches_v1 inp env s fp).generatedImages = s.generatedImages ∧
      (runBranches_v1 inp env s fp).archive = s.archive ∧
      (runBranches_v1 inp env s fp).alertMsg.isSome = true) ∧
    (∀ ps, env.fallbackResult = .ok ps → findInline ps = none →
      (runBranches_v1 inp env s fp).generatedImages = s.generatedImages ∧
      (runBranches_v1 inp env s fp).archive = s.archive ∧
      (runBranches_v1 inp env s fp).alertMsg = s.alertMsg) := by
  have hf : useFlash_v1 inp.isTurboMode inp.referenceImage.isSome = false := by
    rw [hr, ht]; rfl
  constructor
  · intro e he
    simp [runBranches_v1, hf, hqBranch_v1, hq, fallback_v1, fallbackOutcomeSilent, he, finish_v1,
      catch_v1]
  · intro ps hps hfi
    simp [runBranches_v1, hf, hqBranch_v1, hq, fallback_v1, fallbackOutcomeSilent, hps, hfi,
      finish_v1]

/-- Double failure in the second-variant try body: unlike the other two
variants, the fallback also throws when it yields no usable image, so an
error is always reported. -/
theorem runBranches_v2_bothfail (inp : Inputs) (env : Env) (s : GenState) (fp : String)
    (hr : inp.referenceImage = none) (ht : inp.isTurboMode = false)
    (hq : hqOutcome env.hqResult = none) :
    (∀ e, env.fallbackResult = .error e →
      (runBranches_v2 inp env s fp).generatedImages = s.generatedImages ∧
      (runBranches_v2 inp env s fp).archive = s.archive ∧
      (runBranches_v2 inp env s fp).errorMsg.isSome = true) ∧
    (∀ ps, env.fallbackResult = .ok ps → findInline ps = none →
      (runBranches_v2 inp env s fp).generatedImages = s.generatedImages ∧
      (runBranches_v2 inp env s fp).archive = s.archive ∧
      (runBranches_v2 inp env s fp).errorMsg.isSome = true) := by
  have hf : useFlash_v2 inp.isTurboMode inp.referenceImage.isSome inp.aspectRatio = false := by
    rw [hr, ht]
    cases inp.aspectRatio <;> rfl
  constructor
  · intro e he
    simp [runBranches_v2, hf, hqBranch_v2, hq, fallback_v2, flashOutcome, he, finish_v2]
  · intro ps hps hfi
    simp [runBranches_v2, hf, hqBranch_v2, hq, fallback_v2, flashOutcome, hps, hfi, finish_v2]

/-- Double failure through the whole `part_000` handler. -/
theorem gen_p0_bothfail (inp : Inputs) (env : Env) (s : GenState)
    (hp : ¬jsTrim inp.prompt = "") (hk : inp.apiKeyPresent = true)
    (hr : inp.referenceImage = none) (ht : inp.isTurboMode = false)
    (hq : hqOutcome env.hqResult = none) :
    (∀ e, env.fallbackResult = .error e →
      (generateImage_p0 inp env s).generatedImages = s.generatedImages ∧
      (generateImage_p0 inp env s).archive = s.archive ∧
      (generateImage_p0 inp env s).errorMsg.isSome = true) ∧
    (∀ ps, env.fallbackResult = .ok ps → findInline ps = none →
      (generateImage_p0 inp env s).generatedImages = s.generatedImages ∧
      (generateImage_p0 inp env s).archive = s.archive ∧
      (generateImage_p0 inp env s).errorMsg = none) := by
  unfold generateImage_p0
  rw [if_neg hp, if_neg (by simp [hk] : ¬((!inp.apiKeyPresent) = true))]
  rcases runBranches_p0_bothfail inp env
      { s with isGenerating := true, generationStatus := "Inicializando...", errorMsg := none }
      (inp.prompt ++ inp.stylePrompt ++ QUALITY_MODIFIERS_maximalist) hr ht hq with ⟨hA, hB⟩
  constructor
  · intro e he
    obtain ⟨a1, a2, a3⟩ := hA e he
    exact ⟨a1, a2, by rw [a3]; rfl⟩
  · intro ps hps hfi
    exact hB ps hps hfi

/-- Double failure through the whole first-variant handler. -/
theorem gen_v1_bothfail (inp : Inputs) (env : Env) (s : GenState)
    (hp : ¬jsTrim inp.prompt = "")
    (hr : inp.referenceImage = none) (ht : inp.isTurboMode = false)
    (hq : hqOutcome env.hqResult = none) :
    (∀ e, env.fallbackResult = .error e →
      (generateImage_v1 inp env s).generatedImages = s.generatedImages ∧
      (generateImage_v1 inp env s).archive = s.archive ∧
      (generateImage_v1 inp env s).alertMsg.isSome = true) ∧
    (∀ ps, env.fallbackResult = .ok ps → findInline ps = none →
      (generateImage_v1 inp env s).generatedImages = s.generatedImages ∧
      (generateImage_v1 inp env s).archive = s.archive ∧
      (generateImage_v1 inp env s).alertMsg = s.alertMsg) := by
  unfold generateImage_v1
  rw [if_neg hp]
  rcases runBranches_v1_bothfail inp env
      (composePrompt_v1 inp env { s with isGenerating := true }).1
      (composePrompt_v1 inp env { s with isGenerating := true }).2 hr ht hq with ⟨hA, hB⟩
  have hpre := composePrompt_v1_preserve inp env { s with isGenerating := true }
  constructor
  · intro e he
    obtain ⟨a1, a2, a3⟩ := hA e he
    exact ⟨a1.trans hpre.1, a2.trans hpre.2.1, a3⟩
  · intro ps hps hfi
    obtain ⟨a1, a2, a3⟩ := hB ps hps hfi
    exact ⟨a1.trans hpre.1, a2.trans hpre.2.1, a3.trans hpre.2.2.2.1⟩

/-- Double failure through the whole second-variant handler. -/
theorem gen_v2_bothfail (inp : Inputs) (env : Env) (s : GenState)
    (hp : ¬jsTrim inp.prompt = "") (hk : inp.apiKeyPresent = true)
    (hr : inp.referenceImage = none) (ht : inp.isTurboMode = false)
    (hq : hqOutcome env.hqResult = none) :
    (∀ e, env.fallbackResult = .error e →
      (generateImage_v2 inp env s).generatedImages = s.generatedImages ∧
      (generateImage_v2 inp env s).archive = s.archive ∧
      (generateImage_v2 inp env s).errorMsg.isSome = true) ∧
    (∀ ps, env.fallbackResult = .ok ps → findInline ps = none →
      (generateImage_v2 inp env s).generatedImages = s.generatedImages ∧
      (generateImage_v2 inp env s).archive = s.archive ∧
      (generateImage_v2 inp env s).errorMsg.isSome = true) := by
  unfold generateImage_v2
  rw [if_neg hp, if_neg (by simp [hk] : ¬((!inp.apiKeyPresent) = true))]
  rcases runBranches_v2_bothfail inp env
      (composePrompt_v2 inp env
        { s with isGenerating := true, generationStatus := "Inicializando...", errorMsg := none }).1
      (composePrompt_v2 inp env
        { s with isGenerating := true, generationStatus := "Inicializando...", errorMsg := none }).2
      hr ht hq with ⟨hA, hB⟩
  have hpre := composePrompt_v2_preserve inp env
    { s with isGenerating := true, generationStatus := "Inicializando...", errorMsg := none }
  constructor
  · intro e he
    obtain ⟨a1, a2, a3⟩ := hA e he
    exact ⟨a1.trans hpre.1, a2.trans hpre.2.1, a3⟩
  · intro ps hps hfi
    obtain ⟨a1, a2, a3⟩ := hB ps hps hfi
    exact ⟨a1.trans hpre.1, a2.trans hpre.2.1, a3⟩

/-- Fallback success in the `part_000` try body: the record carries the
fallback tag and exactly the high-fidelity call plus one fast call ran. -/
theorem runBranches_p0_fbok (inp : Inputs) (env : Env) (s : GenState) (fp : String)
    (ps : List Part) (d : InlineData)
    (hr : inp.referenceImage = none) (ht : inp.isTurboMode = false)
    (hq : hqOutcome env.hqResult = none)
    (hps : env.fallbackResult = .ok ps) (hfi : findInline ps = some d) :
    (runBranches_p0 inp env s fp).generatedImages
      = mkRecord inp (dataUrl d) "gemini-2.5-flash-image (fallback)" env.now :: s.generatedImages ∧
    (runBranches_p0 inp env s fp).calls
      = s.calls ++ [CallRecord.hqImage fp inp.aspectRatio,
          CallRecord.fastImage (ratioPrompt inp.aspectRatio ++ fp) none] := by
  have hf : useFlash_p0 inp.isTurboMode inp.referenceImage.isSome inp.aspectRatio = false := by
    rw [hr, ht]; rfl
  simp [runBranches_p0, hf, hqBranch_p0, hq, fallback_p0, fallbackOutcomeSilent, hps, hfi,
    finish_p0, dataUrl_ne_empty d]

/-- Fallback success in the first-variant try body (tag `(backup)`);
the IndexedDB put must not reject for the record to survive. -/
theorem runBranches_v1_fbok (inp : Inputs) (env : Env) (s : GenState) (fp : String)
    (ps : List Part) (d : InlineData)
    (hr : inp.referenceImage = none) (ht : inp.isTurboMode = false)
    (hq : hqOutcome env.hqResult = none)
    (hps : env.fallbackResult = .ok ps) (hfi : findInline ps = some d)
    (hdb : env.db ≠ DbOutcome.putError) :
    (runBranches_v1 inp env s fp).generatedImages
      = mkRecord inp (dataUrl d) "gemini-2.5-flash-image (backup)" env.now :: s.generatedImages ∧
    (runBranches_v1 inp env s fp).calls
      = s.calls ++ [CallRecord.hqImage fp inp.aspectRatio,
          CallRecord.fastImage (fp ++ " . " ++ ratioText_v1 inp.aspectRatio) none] := by
  have hf : useFlash_v1 inp.isTurboMode inp.referenceImage.isSome = false := by
    rw [hr, ht]; rfl
  rcases hdbc : env.db with _ | _ | _
  · simp [runBranches_v1, hf, hqBranch_v1, hq, fallback_v1, fallbackOutcomeSilent, hps, hfi,
      finish_v1, dataUrl_ne_empty d, hdbc]
  · simp [runBranches_v1, hf, hqBranch_v1, hq, fallback_v1, fallbackOutcomeSilent, hps, hfi,
      finish_v1, dataUrl_ne_empty d, hdbc]
  · exact absurd hdbc hdb

/-- Fallback success in the second-variant try body (tag `(fallback)`). -/
theorem runBranches_v2_fbok (inp : Inputs) (env : Env) (s : GenState) (fp : String)
    (ps : List Part) (d : InlineData)
    (hr : inp.referenceImage = none) (ht : inp.isTurboMode = false)
    (hq : hqOutcome env.hqResult = none)
    (hps : env.fallbackResult = .ok ps) (hfi : findInline ps = some d) :
    (runBranches_v2 inp env s fp).generatedImages
      = mkRecord inp (dataUrl d) "gemini-2.5-flash-image (fallback)" env.now :: s.generatedImages ∧
    (runBranches_v2 inp env s fp).calls
      = s.calls ++ [CallRecord.hqImage fp inp.aspectRatio,
          CallRecord.fastImage (ratioPrompt inp.aspectRatio ++ fp) none] := by
  have hf : useFlash_v2 inp.isTurboMode inp.referenceImage.isSome inp.aspectRatio = false := by
    rw [hr, ht]
    cases inp.aspectRatio <;> rfl
  simp [runBranches_v2, hf, hqBranch_v2, hq, fallback_v2, flashOutcome, hps, hfi,
    finish_v2, dataUrl_ne_empty d]

/-- Fallback success through the whole `part_000` handler. -/
theorem gen_p0_fbok (inp : Inputs) (env : Env) (s : GenState)
    (ps : List Part) (d : InlineData)
    (hp : ¬jsTrim inp.prompt = "") (hk : inp.apiKeyPresent = true)
    (hr : inp.referenceImage = none) (ht : inp.isTurboMode = false)
    (hq : hqOutcome env.hqResult = none)
    (hps : env.fallbackResult = .ok ps) (hfi : findInline ps = some d) :
    (generateImage_p0 inp env s).generatedImages
      = mkRecord inp (dataUrl d) "gemini-2.5-flash-image (fallback)" env.now :: s.generatedImages ∧
    (generateImage_p0 inp env s).calls.countP CallRecord.isImage
      = s.calls.countP CallRecord.isImage + 2 := by
  unfold generateImage_p0
  rw [if_neg hp, if_neg (by simp [hk] : ¬((!inp.apiKeyPresent) = true))]
  obtain ⟨a1, a2⟩ := runBranches_p0_fbok inp env
      { s with isGenerating := true, generationStatus := "Inicializando...", errorMsg := none }
      (inp.prompt ++ inp.stylePrompt ++ QUALITY_MODIFIERS_maximalist) ps d hr ht hq hps hfi
  refine ⟨a1, ?_⟩
  rw [a2]
  simp [List.countP_append, CallRecord.isImage]

/-- Fallback success through the whole first-variant handler. -/
theorem gen_v1_fbok (inp : Inputs) (env : Env) (s : GenState)
    (ps : List Part) (d : InlineData)
    (hp : ¬jsTrim inp.prompt = "")
    (hr : inp.referenceImage = none) (ht : inp.isTurboMode = false)
    (hq : hqOutcome env.hqResult = none)
    (hps : env.fallbackResult = .ok ps) (hfi : findInline ps = some d)
    (hdb : env.db ≠ DbOutcome.putError) :
    (generateImage_v1 inp env s).generatedImages
      = mkRecord inp (dataUrl d) "gemini-2.5-flash-image (backup)" env.now :: s.generatedImages ∧
    (generateImage_v1 inp env s).calls.countP CallRecord.isImage
      = s.calls.countP CallRecord.isImage + 2 := by
  unfold generateImage_v1
  rw [if_neg hp]
  obtain ⟨a1, a2⟩ := runBranches_v1_fbok inp env
      (composePrompt_v1 inp env { s with isGenerating := true }).1
      (composePrompt_v1 inp env { s with isGenerating := true }).2 ps d hr ht hq hps hfi hdb
  have hpre := composePrompt_v1_preserve inp env { s with isGenerating := true }
  constructor
  · rw [a1, hpre.1]
  · rw [a2]
    simp [List.countP_append, CallRecord.isImage, hpre.2.2.2.2]

/-- Fallback success through the whole second-variant handler. -/
theorem gen_v2_fbok (inp : Inputs) (env : Env) (s : GenState)
    (ps : List Part) (d : InlineData)
    (hp : ¬jsTrim inp.prompt = "") (hk : inp.apiKeyPresent = true)
    (hr : inp.referenceImage = none) (ht : inp.isTurboMode = false)
    (hq : hqOutcome env.hqResult = none)
    (hps : env.fallbackResult = .ok ps) (hfi : findInline ps = some d) :
    (generateImage_v2 inp env s).generatedImages
      = mkRecord inp (dataUrl d) "gemini-2.5-flash-image (fallback)" env.now :: s.generatedImages ∧
    (generateImage_v2 inp env s).calls.countP CallRecord.isImage
      = s.calls.countP CallRecord.isImage + 2 := by
  unfold generateImage_v2
  rw [if_neg hp, if_neg (by simp [hk] : ¬((!inp.apiKeyPresent) = true))]
  obtain ⟨a1, a2⟩ := runBranches_v2_fbok inp env
      (composePrompt_v2 inp env
        { s with isGenerating := true, generationStatus := "Inicializando...", errorMsg := none }).1
      (composePrompt_v2 inp env
        { s with isGenerating := true, generationStatus := "Inicializando...", errorMsg := none }).2
      ps d hr ht hq hps hfi
  have hpre := composePrompt_v2_preserve inp env
    { s with isGenerating := true, generationStatus := "Inicializando...", errorMsg := none }
  constructor
  · rw [a1, hpre.1]
  · rw [a2]
    simp [List.countP_append, CallRecord.isImage, hpre.2.2.2.2]

/-! ### Theorems -/

/-- C1: for every generation request with a reference image attached,
model selection in all three variants resolves to the fast/multimodal
capability (`gemini-2.5-flash-image`), regardless of the speed mode and
of the requested aspect ratio. -/
theorem C1_reference_selects_fast :
    ∀ (turbo : Bool) (ratio : AspectRatio),
      useFlash_p0 turbo true ratio = true ∧
      useFlash_v1 turbo true = true ∧
      useFlash_v2 turbo true ratio = true ∧
      FAST_REFERENCE = "gemini-2.5-flash-image" := by
  intro t r
  cases t <;> cases r <;> exact ⟨rfl, rfl, rfl, rfl⟩

/-- C2 counterexample: in the first `src/App.tsx` variant, a turbo-mode
request with no reference image and the unsupported 16:9 ratio still
selects the fast capability: the run makes exactly one outbound call,
no high-fidelity call, and records the plain fast model identifier. -/
theorem C2_counterexample :
    useFlash_v1 true false = true ∧
    (generateImage_v1 inpTurboWide envAllOk initState).calls.countP isHqCall = 0 ∧
    (generateImage_v1 inpTurboWide envAllOk initState).calls.length = 1 ∧
    (generateImage_v1 inpTurboWide envAllOk initState).generatedImages.map (fun r => r.model)
      = [FAST_REFERENCE] := by
  decide

/-- C2 (amended): in `src/unnamed/part_000` and the second `src/App.tsx`
variant, a fast-mode request without a reference image and with a
non-square aspect ratio selects the high-fidelity capability. -/
theorem C2_fast_mode_unsupported_ratio_uses_hq (ratio : AspectRatio)
    (h : ratio ≠ AspectRatio.square) :
    useFlash_p0 true false ratio = false ∧ useFlash_v2 true false ratio = false := by
  cases ratio
  · exact absurd rfl h
  · exact ⟨rfl, rfl⟩
  · exact ⟨rfl, rfl⟩
  · exact ⟨rfl, rfl⟩
  · exact ⟨rfl, rfl⟩

/-- C2 witness: the amended statement at the concrete ratio 16:9. -/
theorem C2_fast_mode_unsupported_ratio_uses_hq_witness :
    AspectRatio.wideLandscape ≠ AspectRatio.square ∧
    useFlash_p0 true false AspectRatio.wideLandscape = false ∧
    useFlash_v2 true false AspectRatio.wideLandscape = false :=
  ⟨by decide,
   (C2_fast_mode_unsupported_ratio_uses_hq AspectRatio.wideLandscape (by decide)).1,
   (C2_fast_mode_unsupported_ratio_uses_hq AspectRatio.wideLandscape (by decide)).2⟩

/-- C3 counterexample: a whitespace-only prompt is rejected with zero
network calls, but no precondition error is reported: `generateImage`
returns with the state unchanged and `errorMsg` still `none`. -/
theorem C3_counterexample :
    generateImage_p0 inpWhitespace envAllOk initState = initState ∧
    (generateImage_p0 inpWhitespace envAllOk initState).errorMsg = none ∧
    (generateImage_p0 inpWhitespace envAllOk initState).calls = [] := by
  decide

/-- C3 (amended): an empty or whitespace-only prompt returns silently in
all three variants with zero network calls and no error reported; a
missing credential is rejected before any call with an error message in
`part_000` and the second `src/App.tsx` variant, while the first variant
performs no credential check at all and still issues a model call. -/
theorem C3_precondition_rejection (inp : Inputs) (env : Env) (s : GenState) :
    (jsTrim inp.prompt = "" →
      generateImage_p0 inp env s = s ∧
      generateImage_v1 inp env s = s ∧
      generateImage_v2 inp env s = s) ∧
    (jsTrim inp.prompt ≠ "" → inp.apiKeyPresent = false →
      (generateImage_p0 inp env s).calls = s.calls ∧
      (generateImage_p0 inp env s).errorMsg = some "Configuração Necessária: Chave API ausente." ∧
      (generateImage_v2 inp env s).calls = s.calls ∧
      (generateImage_v2 inp env s).errorMsg
        = some "Configuração Necessária: Chave API ausente. Clique na engrenagem para configurar.") ∧
    (generateImage_v1 inpNoKey envAllOk initState).calls.length = 1 := by
  refine ⟨?_, ?_, by decide⟩
  · intro h
    exact ⟨by simp [generateImage_p0, h], by simp [generateImage_v1, h], by simp [generateImage_v2, h]⟩
  · intro h hk
    refine ⟨?_, ?_, ?_, ?_⟩ <;> simp [generateImage_p0, generateImage_v2, h, hk]

/-- C3 witness: the amended statement at concrete inputs (whitespace
prompt; then nonempty prompt with a missing credential). -/
theorem C3_precondition_rejection_witness :
    jsTrim inpWhitespace.prompt = "" ∧
    generateImage_p0 inpWhitespace envAllOk initState = initState ∧
    jsTrim inpNoKey.prompt ≠ "" ∧
    (generateImage_p0 inpNoKey envAllOk initState).errorMsg
      = some "Configuração Necessária: Chave API ausente." :=
  ⟨by decide,
   ((C3_precondition_rejection inpWhitespace envAllOk initState).1 (by decide)).1,
   by decide,
   (((C3_precondition_rejection inpNoKey envAllOk initState).2.1 (by decide) (by decide)).2.1)⟩

/-- C5: in the first `src/App.tsx` variant the success path `await`s
`saveImageToDB`, whose promise rejects when the IndexedDB put request
errors; the rejection is caught as a generation failure and the record
is never handed to the caller, although the model invocation succeeded.
`part_000` (fire-and-forget save) keeps the record under the same
environment. -/
theorem C5_archive_error_fails_generation_v1 :
    (generateImage_v1 baseInputs envDbPutError initState).generatedImages = [] ∧
    (generateImage_v1 baseInputs envDbPutError initState).alertMsg
      = some "Não foi possível gerar a imagem. Detalhe: IndexedDB put failed" ∧
    (generateImage_v1 baseInputs envDbPutError initState).archive = [] ∧
    (generateImage_p0 baseInputs envDbPutError initState).generatedImages.length = 1 := by
  decide

/-- C8: `getImagesFromDB` returns records sorted by creation timestamp
descending for every insertion order of three records with t1 < t2 < t3. -/
theorem C8_getAll_sorted_desc (r1 r2 r3 : GeneratedImage)
    (h12 : r1.createdAt < r2.createdAt) (h23 : r2.createdAt < r3.createdAt) :
    getImagesFromDB .ok [r1, r2, r3] = [r3, r2, r1] ∧
    getImagesFromDB .ok [r1, r3, r2] = [r3, r2, r1] ∧
    getImagesFromDB .ok [r2, r1, r3] = [r3, r2, r1] ∧
    getImagesFromDB .ok [r2, r3, r1] = [r3, r2, r1] ∧
    getImagesFromDB .ok [r3, r1, r2] = [r3, r2, r1] ∧
    getImagesFromDB .ok [r3, r2, r1] = [r3, r2, r1] := by
  have h13 := h12.trans h23
  refine ⟨?_, ?_, ?_, ?_, ?_, ?_⟩ <;>
    simp [getImagesFromDB, sortImages, insertDesc, h12.le, h23.le, h13.le,
      not_le.mpr h12, not_le.mpr h23, not_le.mpr h13]

/-- C8 witness: the ordering statement at records with timestamps 1, 2, 3. -/
theorem C8_getAll_sorted_desc_witness :
    recT1.createdAt < recT2.createdAt ∧ recT2.createdAt < recT3.createdAt ∧
    getImagesFromDB .ok [recT1, recT2, recT3] = [recT3, recT2, recT1] :=
  ⟨by decide, by decide,
   (C8_getAll_sorted_desc recT1 recT2 recT3 (by decide) (by decide)).1⟩

/-- C9 counterexample: identifiers are `Date.now().toString()`, so two
records created in the same millisecond share an identifier, and the
second `put` replaces the first record in the archive. -/
theorem C9_counterexample :
    recSameMs1.id = recSameMs2.id ∧
    recSameMs1 ≠ recSameMs2 ∧
    putRecord (putRecord [] recSameMs1) recSameMs2 = [recSameMs2] := by
  decide

/-- C9 (amended): identifiers are the decimal string of the creation
timestamp; whenever the timestamps of two generations have distinct
decimal representations the identifiers differ, and persisting the
second record never replaces the first. -/
theorem C9_distinct_ids_never_replace (inp1 inp2 : Inputs) (u1 m1 u2 m2 : String)
    (t1 t2 : Nat) (h : Nat.repr t1 ≠ Nat.repr t2) :
    (mkRecord inp1 u1 m1 t1).id ≠ (mkRecord inp2 u2 m2 t2).id ∧
    putRecord (putRecord [] (mkRecord inp1 u1 m1 t1)) (mkRecord inp2 u2 m2 t2)
      = [mkRecord inp1 u1 m1 t1, mkRecord inp2 u2 m2 t2] := by
  refine ⟨by simpa [mkRecord] using h, ?_⟩
  simp [putRecord, mkRecord, h]

/-- C7: for every successful generation in any of the three variants,
the stored record carries the original user prompt (not the composed or
enhanced text) and the requested aspect ratio. -/
theorem C7_record_original_prompt_and_ratio (inp : Inputs) (env : Env) (s : GenState)
    (r : GeneratedImage) :
    ((generateImage_p0 inp env s).generatedImages = r :: s.generatedImages →
      r.prompt = inp.prompt ∧ r.aspectRatio = inp.aspectRatio.str) ∧
    ((generateImage_v1 inp env s).generatedImages = r :: s.generatedImages →
      r.prompt = inp.prompt ∧ r.aspectRatio = inp.aspectRatio.str) ∧
    ((generateImage_v2 inp env s).generatedImages = r :: s.generatedImages →
      r.prompt = inp.prompt ∧ r.aspectRatio = inp.aspectRatio.str) :=
  ⟨fun h => gen_p0_record inp env s r h,
   fun h => gen_v1_record inp env s r h,
   fun h => gen_v2_record inp env s r h⟩

/-- C7 witness: a concrete successful `part_000` generation stores the
record with the untouched prompt `a red fox in snow` and ratio `1:1`. -/
theorem C7_record_original_prompt_and_ratio_witness :
    (generateImage_p0 baseInputs envAllOk initState).generatedImages
      = recFlashOk :: initState.generatedImages ∧
    recFlashOk.prompt = baseInputs.prompt ∧
    recFlashOk.aspectRatio = baseInputs.aspectRatio.str :=
  ⟨by decide,
   ((C7_record_original_prompt_and_ratio baseInputs envAllOk initState recFlashOk).1
     (by decide)).1,
   ((C7_record_original_prompt_and_ratio baseInputs envAllOk initState recFlashOk).1
     (by decide)).2⟩

/-- C10: `generateImage` is a total state transformer in all three
variants (every model or store outcome is handled); after every
invocation that starts from an idle state - success, failure or early
precondition return - the generating flag is false and the status line
is empty. -/
theorem C10_flags_cleared (inp : Inputs) (env : Env) (s : GenState)
    (h1 : s.isGenerating = false) (h2 : s.generationStatus = "") :
    ((generateImage_p0 inp env s).isGenerating = false ∧
     (generateImage_p0 inp env s).generationStatus = "") ∧
    ((generateImage_v1 inp env s).isGenerating = false ∧
     (generateImage_v1 inp env s).generationStatus = "") ∧
    ((generateImage_v2 inp env s).isGenerating = false ∧
     (generateImage_v2 inp env s).generationStatus = "") :=
  ⟨gen_p0_flags inp env s h1 h2, gen_v1_flags inp env s h1 h2, gen_v2_flags inp env s h1 h2⟩

/-- C10 witness: the flag invariant at a concrete idle state and a
concrete environment. -/
theorem C10_flags_cleared_witness :
    initState.isGenerating = false ∧ initState.generationStatus = "" ∧
    (generateImage_p0 baseInputs envAllOk initState).isGenerating = false :=
  ⟨rfl, rfl, (C10_flags_cleared baseInputs envAllOk initState rfl rfl).1.1⟩

/-- C9 witness: the amended statement at timestamps 1 and 2. -/
theorem C9_distinct_ids_never_replace_witness :
    Nat.repr 1 ≠ Nat.repr 2 ∧
    (mkRecord baseInputs "u" HIGH_QUALITY 1).id ≠ (mkRecord baseInputs "u" HIGH_QUALITY 2).id :=
  ⟨by decide,
   (C9_distinct_ids_never_replace baseInputs baseInputs "u" HIGH_QUALITY "u" HIGH_QUALITY 1 2
     (by decide)).1⟩

/-- C4 counterexample: in `part_000`, when the high-fidelity call fails
and the fallback completes without a usable image, the run ends as a
silent non-result: no classified error is reported (`errorMsg` is
`none`), no record is produced, and the archive receives zero writes -
contradicting the claim that a failure is returned to the caller. -/
theorem C4_counterexample :
    (generateImage_p0 inpHqMode envHqFailFallbackNoImage initState).errorMsg = none ∧
    (generateImage_p0 inpHqMode envHqFailFallbackNoImage initState).generatedImages = [] ∧
    (generateImage_p0 inpHqMode envHqFailFallbackNoImage initState).archive = [] ∧
    (generateImage_p0 inpHqMode envHqFailFallbackNoImage initState).isGenerating = false := by
  decide

/-- C4 (amended): when the high-fidelity call fails and the fallback
also fails or yields no usable image, the archive receives zero writes
and no record is produced in all three variants; a classified error is
reported whenever the fallback throws, and in the second `src/App.tsx`
variant also when it merely yields no image, whereas `part_000` and the
first variant end silently in that case. -/
theorem C4_double_failure_no_writes (inp : Inputs) (env : Env) (s : GenState)
    (hp : ¬jsTrim inp.prompt = "") (hk : inp.apiKeyPresent = true)
    (hr : inp.referenceImage = none) (ht : inp.isTurboMode = false)
    (hq : hqOutcome env.hqResult = none) :
    (∀ e, env.fallbackResult = .error e →
      (generateImage_p0 inp env s).generatedImages = s.generatedImages ∧
      (generateImage_p0 inp env s).archive = s.archive ∧
      (generateImage_p0 inp env s).errorMsg.isSome = true ∧
      (generateImage_v1 inp env s).generatedImages = s.generatedImages ∧
      (generateImage_v1 inp env s).archive = s.archive ∧
      (generateImage_v1 inp env s).alertMsg.isSome = true ∧
      (generateImage_v2 inp env s).generatedImages = s.generatedImages ∧
      (generateImage_v2 inp env s).archive = s.archive ∧
      (generateImage_v2 inp env s).errorMsg.isSome = true) ∧
    (∀ ps, env.fallbackResult = .ok ps → findInline ps = none →
      (generateImage_p0 inp env s).generatedImages = s.generatedImages ∧
      (generateImage_p0 inp env s).archive = s.archive ∧
      (generateImage_p0 inp env s).errorMsg = none ∧
      (generateImage_v1 inp env s).generatedImages = s.generatedImages ∧
      (generateImage_v1 inp env s).archive = s.archive ∧
      (generateImage_v1 inp env s).alertMsg = s.alertMsg ∧
      (generateImage_v2 inp env s).generatedImages = s.generatedImages ∧
      (generateImage_v2 inp env s).archive = s.archive ∧
      (generateImage_v2 inp env s).errorMsg.isSome = true) := by
  constructor
  · intro e he
    obtain ⟨a1, a2, a3⟩ := (gen_p0_bothfail inp env s hp hk hr ht hq).1 e he
    obtain ⟨b1, b2, b3⟩ := (gen_v1_bothfail inp env s hp hr ht hq).1 e he
    obtain ⟨c1, c2, c3⟩ := (gen_v2_bothfail inp env s hp hk hr ht hq).1 e he
    exact ⟨a1, a2, a3, b1, b2, b3, c1, c2, c3⟩
  · intro ps hps hfi
    obtain ⟨a1, a2, a3⟩ := (gen_p0_bothfail inp env s hp hk hr ht hq).2 ps hps hfi
    obtain ⟨b1, b2, b3⟩ := (gen_v1_bothfail inp env s hp hr ht hq).2 ps hps hfi
    obtain ⟨c1, c2, c3⟩ := (gen_v2_bothfail inp env s hp hk hr ht hq).2 ps hps hfi
    exact ⟨a1, a2, a3, b1, b2, b3, c1, c2, c3⟩

/-- C4 witness: the amended statement at a concrete double failure (the
high-fidelity call throws, the fallback returns no inline image part). -/
theorem C4_double_failure_no_writes_witness :
    hqOutcome envHqFailFallbackNoImage.hqResult = none ∧
    findInline [noImagePart] = none ∧
    ((generateImage_p0 inpHqMode envHqFailFallbackNoImage initState).generatedImages
        = initState.generatedImages ∧
      (generateImage_p0 inpHqMode envHqFailFallbackNoImage initState).archive
        = initState.archive ∧
      (generateImage_p0 inpHqMode envHqFailFallbackNoImage initState).errorMsg = none ∧
      (generateImage_v1 inpHqMode envHqFailFallbackNoImage initState).generatedImages
        = initState.generatedImages ∧
      (generateImage_v1 inpHqMode envHqFailFallbackNoImage initState).archive
        = initState.archive ∧
      (generateImage_v1 inpHqMode envHqFailFallbackNoImage initState).alertMsg
        = initState.alertMsg ∧
      (generateImage_v2 inpHqMode envHqFailFallbackNoImage initState).generatedImages
        = initState.generatedImages ∧
      (generateImage_v2 inpHqMode envHqFailFallbackNoImage initState).archive
        = initState.archive ∧
      (generateImage_v2 inpHqMode envHqFailFallbackNoImage initState).errorMsg.isSome = true) :=
  ⟨by decide, by decide,
   (C4_double_failure_no_writes inpHqMode envHqFailFallbackNoImage initState
      (by decide) rfl rfl rfl (by decide)).2 [noImagePart] rfl (by decide)⟩

/-- C6: whenever the high-fidelity capability fails and the fast
fallback succeeds, in each variant exactly two outbound image-model
calls occur and the stored record's model field carries a fallback tag
distinct from both the high-fidelity identifier and the plain fast
identifier. -/
theorem C6_fallback_tagged_two_calls (inp : Inputs) (env : Env) (s : GenState)
    (ps : List Part) (d : InlineData)
    (hp : ¬jsTrim inp.prompt = "") (hk : inp.apiKeyPresent = true)
    (hr : inp.referenceImage = none) (ht : inp.isTurboMode = false)
    (hq : hqOutcome env.hqResult = none)
    (hps : env.fallbackResult = .ok ps) (hfi : findInline ps = some d)
    (hdb : env.db ≠ DbOutcome.putError) :
    ((generateImage_p0 inp env s).generatedImages
        = mkRecord inp (dataUrl d) "gemini-2.5-flash-image (fallback)" env.now
            :: s.generatedImages ∧
      (generateImage_p0 inp env s).calls.countP CallRecord.isImage
        = s.calls.countP CallRecord.isImage + 2) ∧
    ((generateImage_v1 inp env s).generatedImages
        = mkRecord inp (dataUrl d) "gemini-2.5-flash-image (backup)" env.now
            :: s.generatedImages ∧
      (generateImage_v1 inp env s).calls.countP CallRecord.isImage
        = s.calls.countP CallRecord.isImage + 2) ∧
    ((generateImage_v2 inp env s).generatedImages
        = mkRecord inp (dataUrl d) "gemini-2.5-flash-image (fallback)" env.now
            :: s.generatedImages ∧
      (generateImage_v2 inp env s).calls.countP CallRecord.isImage
        = s.calls.countP CallRecord.isImage + 2) ∧
    ("gemini-2.5-flash-image (fallback)" ≠ HIGH_QUALITY ∧
      "gemini-2.5-flash-image (fallback)" ≠ FAST_REFERENCE ∧
      "gemini-2.5-flash-image (backup)" ≠ HIGH_QUALITY ∧
      "gemini-2.5-flash-image (backup)" ≠ FAST_REFERENCE) :=
  ⟨gen_p0_fbok inp env s ps d hp hk hr ht hq hps hfi,
   gen_v1_fbok inp env s ps d hp hr ht hq hps hfi hdb,
   gen_v2_fbok inp env s ps d hp hk hr ht hq hps hfi,
   by decide, by decide, by decide, by decide⟩

/-- C6 witness: the fallback-tagging statement at a concrete run where
the high-fidelity call throws and the fallback returns an inline image. -/
theorem C6_fallback_tagged_two_calls_witness :
    hqOutcome envHqFailFallbackOk.hqResult = none ∧
    findInline [okPart] = some { mimeType := "image/png", data := "SU1H" } ∧
    ((generateImage_p0 inpHqMode envHqFailFallbackOk initState).generatedImages
        = mkRecord inpHqMode (dataUrl { mimeType := "image/png", data := "SU1H" })
            "gemini-2.5-flash-image (fallback)" envHqFailFallbackOk.now
            :: initState.generatedImages ∧
      (generateImage_p0 inpHqMode envHqFailFallbackOk initState).calls.countP
          CallRecord.isImage
        = initState.calls.countP CallRecord.isImage + 2) :=
  ⟨by decide, by decide,
   (C6_fallback_tagged_two_calls inpHqMode envHqFailFallbackOk initState [okPart]
      { mimeType := "image/png", data := "SU1H" } (by decide) rfl rfl rfl (by decide) rfl
      (by decide) (by decide)).1⟩

end MK
